import Mathlib

/-!
Shallow embedding of the cart / checkout / filter modules of the
"Mustache Harnesses Co." storefront (src/js/cart.js, src/js/checkout.js,
src/js/filters.js), together with proofs about the claims on them.

Modelling conventions:
* JavaScript strings are modelled as lists of characters (abbrev Str).
  JS whitespace (the regex class \s and String.prototype.trim) is modelled
  over its ASCII part.
* JavaScript numbers are modelled as rationals.  The pair
  Number.prototype.toString / parseFloat, which round-trips on every finite
  number, is modelled as carrying the rational value itself.
* window.localStorage is a partial map from key strings to stored values.
  JSON.stringify / JSON.parse round-tripping is modelled by storing
  structured values directly.  A storage access that throws (quota, privacy
  mode) is modelled by a Boolean parameter ok: the primitive getItem /
  setItem / removeItem operations fail (return Except.error) when ok is
  false.  try/catch in the source is modelled by matching on the Except.
* Date.now / Math.random nondeterminism (generateCartId,
  generateOrderNumber, the current date in validateExpiry) is modelled by
  passing the produced value / current year and month as parameters.
-/

/-- A JavaScript string, as its list of characters. -/
abbrev Str := List Char

/-- Coerce a Lean string literal to the Str model. -/
def str (s : String) : Str := s.data

/-- The ASCII part of the JS whitespace class \s (space, tab, LF, VT, FF, CR). -/
def isJsWs (c : Char) : Bool :=
  c = ' ' || c = '\t' || c = '\n' || c = '\x0b' || c = '\x0c' || c = '\r'

/-- JS String.prototype.trim: strip whitespace from both ends. -/
def jsTrim (l : Str) : Str :=
  ((l.dropWhile isJsWs).reverse.dropWhile isJsWs).reverse

/-- JS String.prototype.toUpperCase (ASCII part). -/
def jsToUpper (l : Str) : Str := l.map Char.toUpper

/-- JS String.prototype.split at a separator character.
    "".split(c) = [""], "a,b".split(',') = ["a","b"], etc. -/
def splitCh (sep : Char) : Str → List Str
  | [] => [[]]
  | c :: cs =>
    let r := splitCh sep cs
    if c = sep then [] :: r
    else
      match r with
      | h :: t => (c :: h) :: t
      | [] => [[c]]

/-- JS Array.prototype.join with a separator character. -/
def joinCh (sep : Char) : List Str → Str
  | [] => []
  | [x] => x
  | x :: xs => x ++ sep :: joinCh sep xs

/-- JS s.replace(/\D/g, ''): keep only decimal digits. -/
def keepDigits (l : Str) : Str := l.filter Char.isDigit

/-- JS s.replace(/[\s\-]/g, ''): remove whitespace and dashes. -/
def stripWsDash (l : Str) : Str := l.filter (fun c => !(isJsWs c || c = '-'))

/-- JS s.slice(-4): the last four characters (whole string when shorter). -/
def sliceLast4 (l : Str) : Str := l.drop (l.length - 4)

/-- Numeric value of a digit character. -/
def digitVal (c : Char) : ℕ := c.toNat - '0'.toNat

/-! ## Data model (cart.js, checkout.js) -/

/-- Cart item as stored in the mh_cart array (cart.js). -/
structure CartItem where
  productId : String
  name : String
  price : ℚ
  size : String
  color : String
  quantity : ℚ
  image : String
  cartId : String
  deriving DecidableEq, Repr

/-- The item argument of addToCart (no cartId yet). -/
structure ItemInput where
  productId : String
  name : String
  price : ℚ
  size : String
  color : String
  quantity : ℚ
  image : String
  deriving DecidableEq, Repr

/-- Line item snapshot stored inside an order (processCheckout, items map). -/
structure OrderItem where
  productId : String
  name : String
  price : ℚ
  size : String
  color : String
  quantity : ℚ
  image : String
  deriving DecidableEq, Repr

/-- Shipping block of an order record. -/
structure OrderShipping where
  firstName : Str
  lastName : Str
  address1 : Str
  address2 : Str
  city : Str
  state : Str
  zipCode : Str
  country : Str
  deriving DecidableEq, Repr

/-- Contact block of an order record. -/
structure OrderContact where
  email : Str
  phone : Str
  deriving DecidableEq, Repr

/-- Payment block of an order record: only the masked card data is stored. -/
structure OrderPayment where
  cardLast4 : Str
  cardName : Str
  deriving DecidableEq, Repr

/-- Totals block of an order record, snapshotted from the cart summary. -/
structure OrderTotals where
  subtotal : ℚ
  discount : ℚ
  promoCode : Option Str
  shipping : ℚ
  total : ℚ
  deriving DecidableEq, Repr

/-- Order record as appended to the mh_orders array (saveOrder). -/
structure Order where
  items : List OrderItem
  shipping : OrderShipping
  contact : OrderContact
  payment : OrderPayment
  totals : OrderTotals
  orderNumber : String
  orderDate : String
  status : String
  deriving DecidableEq, Repr

/-- A value held in localStorage, with JSON (de)serialisation abstracted:
    the cart array and the orders array are stored structurally, the promo
    code is stored as a raw string. -/
inductive StoredVal where
  | cartV (c : List CartItem)
  | strV (s : Str)
  | ordersV (os : List Order)
  deriving DecidableEq

/-- The localStorage state: a partial map from keys to stored values. -/
def Store := String → Option StoredVal

/-- The empty localStorage. -/
def emptyStore : Store := fun _ => none

/-- localStorage.getItem; fails when storage access throws (ok = false). -/
def getItem (ok : Bool) (st : Store) (k : String) : Except Unit (Option StoredVal) :=
  if ok then .ok (st k) else .error ()

/-- localStorage.setItem; fails when storage access throws (ok = false). -/
def setItem (ok : Bool) (st : Store) (k : String) (v : StoredVal) :
    Except Unit Store :=
  if ok then .ok (fun k' => if k' = k then some v else st k') else .error ()

/-- localStorage.removeItem; fails when storage access throws (ok = false). -/
def removeItem (ok : Bool) (st : Store) (k : String) : Except Unit Store :=
  if ok then .ok (fun k' => if k' = k then none else st k') else .error ()

/-! ## cart.js -/

def CART_STORAGE_KEY : String := "mh_cart"
def PROMO_STORAGE_KEY : String := "mh_promo"

/-- Valid promo codes and their discounts: AIFORHUMANS gives 10% off. -/
def PROMO_CODES : List (Str × ℚ) := [(str "AIFORHUMANS", 1/10)]

/-- initCart: read and parse the stored cart; on a storage error (or anything
    that is not a stored cart array) degrade to the empty list. -/
def initCart (ok : Bool) (st : Store) : List CartItem :=
  match getItem ok st CART_STORAGE_KEY with
  | .ok (some (.cartV c)) => c
  | .ok _ => []
  | .error _ => []

/-- saveCart: write the cart; on a storage error log and leave storage as is. -/
def saveCart (ok : Bool) (st : Store) (cart : List CartItem) : Store :=
  match setItem ok st CART_STORAGE_KEY (.cartV cart) with
  | .ok st' => st'
  | .error _ => st

/-- getCart: alias for initCart. -/
def getCart (ok : Bool) (st : Store) : List CartItem := initCart ok st

/-- Whether a cart row matches the added item's variant key
    (productId, size, color) — the findIndex predicate in addToCart. -/
def variantMatches (row : CartItem) (item : ItemInput) : Bool :=
  row.productId = item.productId && row.size = item.size && row.color = item.color

/-- The new cart row pushed by addToCart: the item's fields plus a cartId. -/
def mkCartItem (item : ItemInput) (newId : String) : CartItem :=
  { productId := item.productId, name := item.name, price := item.price,
    size := item.size, color := item.color, quantity := item.quantity,
    image := item.image, cartId := newId }

/-- Replace the element at index i (no-op when out of range). -/
def modifyAt (l : List CartItem) (i : ℕ) (f : CartItem → CartItem) :
    List CartItem :=
  l.modify f i

/-- The cart-array transformation performed by addToCart between its getCart
    and saveCart calls: merge into the first row with the same
    (productId, size, color), else push a fresh row. -/
def addToCartList (cart : List CartItem) (item : ItemInput) (newId : String) :
    List CartItem :=
  match cart.findIdx? (fun row => variantMatches row item) with
  | some i => modifyAt cart i (fun row => { row with quantity := row.quantity + item.quantity })
  | none => cart ++ [mkCartItem item newId]

/-- addToCart: read the cart, merge or push, save, and return the new cart.
    The generated cartId (Date.now / Math.random) is passed in as newId. -/
def addToCart (ok : Bool) (item : ItemInput) (newId : String) (st : Store) :
    Store × List CartItem :=
  let cart := getCart ok st
  let cart' := addToCartList cart item newId
  (saveCart ok st cart', cart')

/-- The cart-array transformation performed by removeFromCart:
    drop every row with the given cartId. -/
def removeFromCartList (cart : List CartItem) (cartId : String) : List CartItem :=
  cart.filter (fun item => item.cartId ≠ cartId)

/-- removeFromCart: filter out the row with the given cartId and save. -/
def removeFromCart (ok : Bool) (cartId : String) (st : Store) :
    Store × List CartItem :=
  let cart := getCart ok st
  let updatedCart := removeFromCartList cart cartId
  (saveCart ok st updatedCart, updatedCart)

/-- The cart-array transformation performed by updateQuantity for a positive
    quantity: set the quantity of the first row with the given cartId. -/
def updateQuantityList (cart : List CartItem) (cartId : String) (quantity : ℚ) :
    List CartItem :=
  match cart.findIdx? (fun item => item.cartId = cartId) with
  | some i => modifyAt cart i (fun row => { row with quantity := quantity })
  | none => cart

/-- updateQuantity: a quantity ≤ 0 removes the row; otherwise the first row
    with the given cartId gets the new quantity (saved only when found). -/
def updateQuantity (ok : Bool) (cartId : String) (quantity : ℚ) (st : Store) :
    Store × List CartItem :=
  if quantity ≤ 0 then
    removeFromCart ok cartId st
  else
    let cart := getCart ok st
    match cart.findIdx? (fun item => item.cartId = cartId) with
    | some _ =>
      let cart' := updateQuantityList cart cartId quantity
      (saveCart ok st cart', cart')
    | none => (st, cart)

/-- calculateSubtotal: reduce over the cart summing price * quantity. -/
def calculateSubtotal (ok : Bool) (st : Store) : ℚ :=
  (getCart ok st).foldl (fun total item => total + item.price * item.quantity) 0

/-- getAppliedPromo: the stored promo code, or null on absence / storage
    error. -/
def getAppliedPromo (ok : Bool) (st : Store) : Option Str :=
  match getItem ok st PROMO_STORAGE_KEY with
  | .ok (some (.strV s)) => some s
  | .ok _ => none
  | .error _ => none

/-- Result record of validatePromoCode. -/
structure PromoValidation where
  valid : Bool
  discount : ℚ
  message : String
  deriving Repr

/-- validatePromoCode: falsy input is rejected; otherwise the trimmed,
    upper-cased code must be a key of PROMO_CODES. -/
def validatePromoCode (code : Str) : PromoValidation :=
  if code = [] then
    { valid := false, discount := 0, message := "Please enter a promo code." }
  else
    let normalizedCode := jsToUpper (jsTrim code)
    match PROMO_CODES.lookup normalizedCode with
    | some d =>
      { valid := true, discount := d, message := "Promo code applied!" }
    | none =>
      { valid := false, discount := 0,
        message := "Invalid promo code. Please try again." }

/-- Result record of applyPromoCode. -/
structure PromoApplyResult where
  success : Bool
  message : String
  deriving Repr

/-- applyPromoCode: when valid, store the normalized (trimmed, upper-cased)
    code; a storage error degrades to a failure result. -/
def applyPromoCode (ok : Bool) (code : Str) (st : Store) :
    Store × PromoApplyResult :=
  let validation := validatePromoCode code
  if validation.valid then
    let normalizedCode := jsToUpper (jsTrim code)
    match setItem ok st PROMO_STORAGE_KEY (.strV normalizedCode) with
    | .ok st' => (st', { success := true, message := validation.message })
    | .error _ =>
      (st, { success := false,
             message := "Error applying promo code. Please try again." })
  else
    (st, { success := false, message := validation.message })

/-- removePromoCode: remove the stored promo; a storage error is swallowed. -/
def removePromoCode (ok : Bool) (st : Store) : Store :=
  match removeItem ok st PROMO_STORAGE_KEY with
  | .ok st' => st'
  | .error _ => st

/-- calculateDiscount: 0 unless a known promo code is stored, else the
    stored code's rate times the subtotal. -/
def calculateDiscount (ok : Bool) (st : Store) : ℚ :=
  match getAppliedPromo ok st with
  | none => 0
  | some promoCode =>
    if promoCode = [] then 0
    else
      match PROMO_CODES.lookup promoCode with
      | none => 0
      | some rate => calculateSubtotal ok st * rate

/-- calculateTotal: subtotal minus discount. -/
def calculateTotal (ok : Bool) (st : Store) : ℚ :=
  calculateSubtotal ok st - calculateDiscount ok st

/-- getCartItemCount: reduce over the cart summing quantities. -/
def getCartItemCount (ok : Bool) (st : Store) : ℚ :=
  (getCart ok st).foldl (fun count item => count + item.quantity) 0

/-- Cart summary record returned by getCartSummary. -/
structure CartSummary where
  subtotal : ℚ
  promoCode : Option Str
  discount : ℚ
  total : ℚ
  shipping : ℚ
  itemCount : ℚ
  deriving DecidableEq, Repr

/-- getCartSummary: all calculated values; shipping is always free (0). -/
def getCartSummary (ok : Bool) (st : Store) : CartSummary :=
  let subtotal := calculateSubtotal ok st
  let promoCode := getAppliedPromo ok st
  let discount := calculateDiscount ok st
  let total := subtotal - discount
  { subtotal := subtotal, promoCode := promoCode, discount := discount,
    total := total, shipping := 0, itemCount := getCartItemCount ok st }

/-- clearCart: remove the cart and promo keys in one try block; on a storage
    error (the first removeItem throws) storage is left as is. -/
def clearCart (ok : Bool) (st : Store) : Store :=
  match removeItem ok st CART_STORAGE_KEY with
  | .ok st' =>
    match removeItem ok st' PROMO_STORAGE_KEY with
    | .ok st'' => st''
    | .error _ => st'
  | .error _ => st

/-- isCartEmpty: whether the cart has no rows. -/
def isCartEmpty (ok : Bool) (st : Store) : Bool :=
  (getCart ok st).length = 0

/-! ## checkout.js -/

def ORDERS_STORAGE_KEY : String := "mh_orders"

/-- Result record of the single-field validators. -/
structure ValidationResult where
  valid : Bool
  message : String
  deriving Repr

/-- Anchored test of the email regex from validateEmail,
    /^[^\s@]+@[^\s@]+\.[^\s@]+$/ : a match exists iff the string splits at
    a unique at-sign into a nonempty whitespace-free local part and a
    whitespace-free domain containing a dot with nonempty material on both
    sides. -/
def emailRegexTest (l : Str) : Bool :=
  match splitCh '@' l with
  | [u, v] =>
    !u.isEmpty && u.all (fun c => !isJsWs c) && v.all (fun c => !isJsWs c) &&
    (List.range v.length).any
      (fun i => decide (1 ≤ i) && decide (i + 1 < v.length) && v.getD i ' ' = '.')
  | _ => false

/-- validateEmail: required, trimmed, and matched against the email regex. -/
def validateEmail (email : Str) : ValidationResult :=
  if email = [] then
    { valid := false, message := "Email address is required." }
  else
    let trimmed := jsTrim email
    if trimmed.length = 0 then
      { valid := false, message := "Email address is required." }
    else if !emailRegexTest trimmed then
      { valid := false, message := "Please enter a valid email address." }
    else
      { valid := true, message := "" }

/-- Character class of the phone regex /^[\d\s\-\(\)\+\.]+$/. -/
def phoneChar (c : Char) : Bool :=
  c.isDigit || isJsWs c || c = '-' || c = '(' || c = ')' || c = '+' || c = '.'

/-- validatePhone: optional unless required; otherwise the trimmed value
    must consist of phone characters and hold 10 to 15 digits. -/
def validatePhone (phone : Str) (required : Bool) : ValidationResult :=
  if phone = [] then
    if required then { valid := false, message := "Phone number is required." }
    else { valid := true, message := "" }
  else
    let trimmed := jsTrim phone
    if trimmed.length = 0 then
      if required then { valid := false, message := "Phone number is required." }
      else { valid := true, message := "" }
    else
      let digitsOnly := keepDigits trimmed
      if !(trimmed.all phoneChar) || digitsOnly.length < 10 ||
          digitsOnly.length > 15 then
        { valid := false,
          message := "Please enter a valid phone number (10-15 digits)." }
      else
        { valid := true, message := "" }

/-- The Luhn loop of luhnCheck: walk the digits (already reversed, so from
    the rightmost digit), doubling every second one and folding digits of
    doubled values by subtracting 9. -/
def luhnAux : Str → Bool → ℕ
  | [], _ => 0
  | c :: cs, isEven =>
    let d := digitVal c
    let d' := if isEven then (if 2 * d > 9 then 2 * d - 9 else 2 * d) else d
    d' + luhnAux cs (!isEven)

/-- luhnCheck: the alternating digit sum, taken from the right, is
    divisible by 10. -/
def luhnCheck (cardNumber : Str) : Bool :=
  luhnAux cardNumber.reverse false % 10 = 0

/-- validateCreditCard: after stripping whitespace and dashes the value
    must be 13 to 19 digits passing the Luhn check. -/
def validateCreditCard (cardNumber : Str) : ValidationResult :=
  if cardNumber = [] then
    { valid := false, message := "Card number is required." }
  else
    let digitsOnly := stripWsDash cardNumber
    if digitsOnly.length = 0 then
      { valid := false, message := "Card number is required." }
    else if !(digitsOnly.all Char.isDigit) then
      { valid := false, message := "Card number should contain only digits." }
    else if digitsOnly.length < 13 || digitsOnly.length > 19 then
      { valid := false,
        message := "Please enter a valid card number (13-19 digits)." }
    else if !luhnCheck digitsOnly then
      { valid := false, message := "Please enter a valid card number." }
    else
      { valid := true, message := "" }

/-- Value of a digit string. -/
def natOfDigits (l : Str) : ℕ := l.foldl (fun n c => n * 10 + digitVal c) 0

/-- Anchored match of the expiry regex /^(0[1-9]|1[0-2])\/?(\d{2}|\d{4})$/,
    returning the month group's value and the year group's value. -/
def expiryMatch (l : Str) : Option (ℕ × ℕ) :=
  match l with
  | c1 :: c2 :: rest =>
    if (c1 = '0' && c2.isDigit && c2 ≠ '0') ||
        (c1 = '1' && (c2 = '0' || c2 = '1' || c2 = '2')) then
      let rest' := match rest with
        | '/' :: r => r
        | r => r
      if (rest'.length = 2 || rest'.length = 4) && rest'.all Char.isDigit then
        some (digitVal c1 * 10 + digitVal c2, natOfDigits rest')
      else none
    else none
  | _ => none

/-- validateExpiry: MM/YY or MM/YYYY (whitespace removed before matching),
    not in the past, and at most 20 years in the future.  The current date
    (new Date()) is passed in as currentYear / currentMonth. -/
def validateExpiry (expiry : Str) (currentYear currentMonth : ℕ) :
    ValidationResult :=
  if expiry = [] then
    { valid := false, message := "Expiry date is required." }
  else
    let trimmed := jsTrim expiry
    if trimmed.length = 0 then
      { valid := false, message := "Expiry date is required." }
    else
      match expiryMatch (trimmed.filter (fun c => !isJsWs c)) with
      | none =>
        { valid := false, message := "Please enter expiry date in MM/YY format." }
      | some (month, y) =>
        let year := if y < 100 then y + 2000 else y
        if year < currentYear ∨ (year = currentYear ∧ month < currentMonth) then
          { valid := false, message := "This card has expired." }
        else if year > currentYear + 20 then
          { valid := false, message := "Please enter a valid expiry date." }
        else
          { valid := true, message := "" }

/-- validateCVV: the trimmed value must be 3 or 4 digits. -/
def validateCVV (cvv : Str) : ValidationResult :=
  if cvv = [] then
    { valid := false, message := "CVV is required." }
  else
    let trimmed := jsTrim cvv
    if trimmed.length = 0 then
      { valid := false, message := "CVV is required." }
    else if !((trimmed.length = 3 || trimmed.length = 4) &&
        trimmed.all Char.isDigit) then
      { valid := false, message := "Please enter a valid CVV (3-4 digits)." }
    else
      { valid := true, message := "" }

/-- validateRequired: the value must be present with a nonempty trim. -/
def validateRequired (value : Str) (fieldName : String) : ValidationResult :=
  if value = [] then
    { valid := false, message := fieldName ++ " is required." }
  else if (jsTrim value).length = 0 then
    { valid := false, message := fieldName ++ " is required." }
  else
    { valid := true, message := "" }

/-- US zip pattern /^\d{5}(-\d{4})?$/. -/
def zipUS (l : Str) : Bool :=
  (l.length = 5 && l.all Char.isDigit) ||
  (l.length = 10 && (l.take 5).all Char.isDigit && l.getD 5 ' ' = '-' &&
    (l.drop 6).all Char.isDigit)

/-- Canadian postal pattern /^[A-Za-z]\d[A-Za-z][ -]?\d[A-Za-z]\d$/. -/
def zipCA (l : Str) : Bool :=
  match l with
  | [a, b, c, d, e, f] =>
    a.isAlpha && b.isDigit && c.isAlpha && d.isDigit && e.isAlpha && f.isDigit
  | [a, b, c, s, d, e, f] =>
    a.isAlpha && b.isDigit && c.isAlpha && (s = ' ' || s = '-') &&
    d.isDigit && e.isAlpha && f.isDigit
  | _ => false

/-- UK postcode pattern /^[A-Za-z]{1,2}\d[A-Za-z\d]?\s?\d[A-Za-z]{2}$/,
    tried over the optional-part choices. -/
def zipUK (l : Str) : Bool :=
  [1, 2].any fun a =>
    decide (a ≤ l.length) && (l.take a).all Char.isAlpha &&
      (match l.drop a with
       | d1 :: r2 =>
         d1.isDigit &&
         ([0, 1].any fun b =>
           (if b = 1 then
              match r2 with
              | x :: _ => x.isAlpha || x.isDigit
              | [] => false
            else true) &&
           (let r3 := r2.drop b
            [0, 1].any fun w =>
              (if w = 1 then
                 match r3 with
                 | x :: _ => isJsWs x
                 | [] => false
               else true) &&
              (match r3.drop w with
               | [d2, x, y] => d2.isDigit && x.isAlpha && y.isAlpha
               | _ => false)))
       | [] => false)

/-- Generic zip pattern /^[\dA-Za-z\s\-]{3,10}$/. -/
def zipDefault (l : Str) : Bool :=
  3 ≤ l.length && l.length ≤ 10 &&
  l.all (fun c => c.isDigit || c.isAlpha || isJsWs c || c = '-')

/-- validateZipCode: country-specific regex check of the trimmed value. -/
def validateZipCode (zipCode : Str) (country : Str) : ValidationResult :=
  if zipCode = [] then
    { valid := false, message := "Zip/postal code is required." }
  else
    let trimmed := jsTrim zipCode
    if trimmed.length = 0 then
      { valid := false, message := "Zip/postal code is required." }
    else
      let pass :=
        if country = str "US" then zipUS trimmed
        else if country = str "CA" then zipCA trimmed
        else if country = str "UK" then zipUK trimmed
        else zipDefault trimmed
      if !pass then
        if country = str "US" then
          { valid := false,
            message := "Please enter a valid US zip code (e.g., 12345 or 12345-6789)." }
        else if country = str "CA" then
          { valid := false,
            message := "Please enter a valid Canadian postal code (e.g., A1A 1A1)." }
        else
          { valid := false, message := "Please enter a valid zip/postal code." }
      else
        { valid := true, message := "" }

/-- The checkout form fields (all JS strings; an absent optional field is
    the empty string, which is falsy like undefined). -/
structure FormData where
  email : Str
  phone : Str
  firstName : Str
  lastName : Str
  address1 : Str
  address2 : Str
  city : Str
  state : Str
  zipCode : Str
  country : Str
  cardNumber : Str
  cardName : Str
  expiry : Str
  cvv : Str
  deriving DecidableEq, Repr

/-- Result of validateCheckoutForm: the errors object as an ordered list of
    (field, message) entries; valid iff no errors were recorded. -/
structure CheckoutValidation where
  valid : Bool
  errors : List (String × String)
  deriving Repr

/-- validateCheckoutForm: run every field validator in source order and
    collect the failures. -/
def validateCheckoutForm (formData : FormData)
    (currentYear currentMonth : ℕ) : CheckoutValidation :=
  let emailResult := validateEmail formData.email
  let phoneResult := validatePhone formData.phone false
  let firstNameResult := validateRequired formData.firstName "First name"
  let lastNameResult := validateRequired formData.lastName "Last name"
  let address1Result := validateRequired formData.address1 "Address"
  let cityResult := validateRequired formData.city "City"
  let stateResult := validateRequired formData.state "State/Province"
  let zipResult := validateZipCode formData.zipCode formData.country
  let countryResult := validateRequired formData.country "Country"
  let cardNumberResult := validateCreditCard formData.cardNumber
  let cardNameResult := validateRequired formData.cardName "Cardholder name"
  let expiryResult := validateExpiry formData.expiry currentYear currentMonth
  let cvvResult := validateCVV formData.cvv
  let errors :=
    (if !emailResult.valid then [("email", emailResult.message)] else []) ++
    (if !phoneResult.valid then [("phone", phoneResult.message)] else []) ++
    (if !firstNameResult.valid then [("firstName", firstNameResult.message)] else []) ++
    (if !lastNameResult.valid then [("lastName", lastNameResult.message)] else []) ++
    (if !address1Result.valid then [("address1", address1Result.message)] else []) ++
    (if !cityResult.valid then [("city", cityResult.message)] else []) ++
    (if !stateResult.valid then [("state", stateResult.message)] else []) ++
    (if !zipResult.valid then [("zipCode", zipResult.message)] else []) ++
    (if !countryResult.valid then [("country", countryResult.message)] else []) ++
    (if !cardNumberResult.valid then [("cardNumber", cardNumberResult.message)] else []) ++
    (if !cardNameResult.valid then [("cardName", cardNameResult.message)] else []) ++
    (if !expiryResult.valid then [("expiry", expiryResult.message)] else []) ++
    (if !cvvResult.valid then [("cvv", cvvResult.message)] else [])
  { valid := errors.isEmpty, errors := errors }

/-- getOrderHistory: the stored orders array; degrade to the empty list on
    absence or a storage error. -/
def getOrderHistory (ok : Bool) (st : Store) : List Order :=
  match getItem ok st ORDERS_STORAGE_KEY with
  | .ok (some (.ordersV os)) => os
  | .ok _ => []
  | .error _ => []

/-- The order object built by processCheckout, before saveOrder stamps it. -/
structure OrderData where
  items : List OrderItem
  shipping : OrderShipping
  contact : OrderContact
  payment : OrderPayment
  totals : OrderTotals
  deriving DecidableEq, Repr

/-- saveOrder: stamp the order with a fresh number, date, and confirmed
    status, and append it to the stored history; a storage failure is
    logged and rethrown as "Failed to save order. Please try again.".
    The generated number and date are passed in as parameters. -/
def saveOrder (ok : Bool) (order : OrderData) (orderNumber orderDate : String)
    (st : Store) : Store × Except String Order :=
  let orderRecord : Order :=
    { items := order.items, shipping := order.shipping,
      contact := order.contact, payment := order.payment,
      totals := order.totals, orderNumber := orderNumber,
      orderDate := orderDate, status := "confirmed" }
  let orders := getOrderHistory ok st
  match setItem ok st ORDERS_STORAGE_KEY (.ordersV (orders ++ [orderRecord])) with
  | .ok st' => (st', .ok orderRecord)
  | .error _ => (st, .error "Failed to save order. Please try again.")

/-- Result record of processCheckout. -/
structure CheckoutResult where
  success : Bool
  order : Option Order
  errors : Option (List (String × String))
  deriving Repr

/-- processCheckout: validate the form, reject an empty cart, build the
    order snapshot (trimmed fields, masked card), save it, and clear the
    cart and promo storage on success; a saveOrder failure is caught and
    turned into a failure result. -/
def processCheckout (formData : FormData) (cartItems : List CartItem)
    (cartSummary : CartSummary) (orderNumber orderDate : String)
    (currentYear currentMonth : ℕ) (ok : Bool) (st : Store) :
    Store × CheckoutResult :=
  let validation := validateCheckoutForm formData currentYear currentMonth
  if !validation.valid then
    (st, { success := false, order := none, errors := some validation.errors })
  else if cartItems.isEmpty then
    (st, { success := false, order := none,
           errors := some [("cart", "Your cart is empty.")] })
  else
    let order : OrderData :=
      { items := cartItems.map (fun item =>
          { productId := item.productId, name := item.name,
            price := item.price, size := item.size, color := item.color,
            quantity := item.quantity, image := item.image }),
        shipping :=
          { firstName := jsTrim formData.firstName,
            lastName := jsTrim formData.lastName,
            address1 := jsTrim formData.address1,
            address2 := if formData.address2 = [] then []
                        else jsTrim formData.address2,
            city := jsTrim formData.city,
            state := jsTrim formData.state,
            zipCode := jsTrim formData.zipCode,
            country := jsTrim formData.country },
        contact :=
          { email := jsTrim formData.email,
            phone := if formData.phone = [] then [] else jsTrim formData.phone },
        payment :=
          { cardLast4 := sliceLast4 (keepDigits formData.cardNumber),
            cardName := jsTrim formData.cardName },
        totals :=
          { subtotal := cartSummary.subtotal,
            discount := cartSummary.discount,
            promoCode := cartSummary.promoCode,
            shipping := cartSummary.shipping,
            total := cartSummary.total } }
    match saveOrder ok order orderNumber orderDate st with
    | (st', .ok savedOrder) =>
      (clearCart ok st', { success := true, order := some savedOrder,
                           errors := none })
    | (st', .error msg) =>
      (st', { success := false, order := none,
              errors := some [("general", msg)] })

/-- getOrderByNumber: find a stored order by its order number. -/
def getOrderByNumber (ok : Bool) (orderNumber : String) (st : Store) :
    Option Order :=
  (getOrderHistory ok st).find? (fun order => order.orderNumber = orderNumber)

/-! ## filters.js

The composition parseFiltersFromURL ∘ buildURLFromFilters goes through a
URLSearchParams query string.  URLSearchParams percent-encodes parameter
values on toString and decodes them on parsing, so the composition is
modelled through the key/value map itself: a Query record holding, for each
parameter name the two functions use, the value it maps to (none when the
parameter is absent).  The numeric minPrice / maxPrice channel
(Number.prototype.toString on build, parseFloat on parse, which round-trip
on every finite number) carries the rational value; parseFloat can return
NaN only for payloads no number serialises to, so that branch is
unreachable through build. -/

/-- Filter state object (getDefaultFilters shape). -/
structure Filters where
  categories : List Str
  minPrice : Option ℚ
  maxPrice : Option ℚ
  colors : List Str
  sizes : List Str
  inStockOnly : Bool
  sort : Str
  search : Str
  deriving DecidableEq, Repr

/-- getDefaultFilters: the default filter state. -/
def getDefaultFilters : Filters :=
  { categories := [], minPrice := none, maxPrice := none, colors := [],
    sizes := [], inStockOnly := false, sort := str "featured", search := [] }

/-- The URLSearchParams contents exchanged between buildURLFromFilters and
    parseFiltersFromURL: one optional value per parameter name. -/
structure Query where
  categories : Option Str
  minPrice : Option ℚ
  maxPrice : Option ℚ
  colors : Option Str
  sizes : Option Str
  inStock : Option Str
  sort : Option Str
  search : Option Str
  deriving DecidableEq, Repr

/-- buildURLFromFilters: set each parameter from a non-default field
    (arrays joined with commas, sort only when not featured, search
    trimmed). -/
def buildURLFromFilters (filters : Filters) : Query :=
  { categories :=
      if !filters.categories.isEmpty then
        some (joinCh ',' filters.categories)
      else none,
    minPrice := filters.minPrice,
    maxPrice := filters.maxPrice,
    colors :=
      if !filters.colors.isEmpty then some (joinCh ',' filters.colors)
      else none,
    sizes :=
      if !filters.sizes.isEmpty then some (joinCh ',' filters.sizes)
      else none,
    inStock := if filters.inStockOnly then some (str "true") else none,
    sort :=
      if filters.sort ≠ [] ∧ filters.sort ≠ str "featured" then
        some filters.sort
      else none,
    search :=
      if filters.search ≠ [] ∧ jsTrim filters.search ≠ [] then
        some (jsTrim filters.search)
      else none }

/-- The sort options accepted by parseFiltersFromURL. -/
def validSorts : List Str :=
  [str "featured", str "price-asc", str "price-desc", str "name",
   str "newest", str "best-sellers", str "rating"]

/-- parseFiltersFromURL: start from the defaults and take over each
    well-formed parameter (comma-split arrays keeping entries with a
    nonempty trim, non-negative prices, a known sort, trimmed search). -/
def parseFiltersFromURL (q : Query) : Filters :=
  let filters₀ := getDefaultFilters
  let filters₁ :=
    match q.categories with
    | some s =>
      if s ≠ [] then
        { filters₀ with categories := (splitCh ',' s).filter (fun c => jsTrim c ≠ []) }
      else filters₀
    | none => filters₀
  let filters₂ :=
    match q.minPrice with
    | some p => if 0 ≤ p then { filters₁ with minPrice := some p } else filters₁
    | none => filters₁
  let filters₃ :=
    match q.maxPrice with
    | some p => if 0 ≤ p then { filters₂ with maxPrice := some p } else filters₂
    | none => filters₂
  let filters₄ :=
    match q.colors with
    | some s =>
      if s ≠ [] then
        { filters₃ with colors := (splitCh ',' s).filter (fun c => jsTrim c ≠ []) }
      else filters₃
    | none => filters₃
  let filters₅ :=
    match q.sizes with
    | some s =>
      if s ≠ [] then
        { filters₄ with sizes := (splitCh ',' s).filter (fun c => jsTrim c ≠ []) }
      else filters₄
    | none => filters₄
  let filters₆ :=
    if q.inStock = some (str "true") ∨ q.inStock = some (str "1") then
      { filters₅ with inStockOnly := true }
    else filters₅
  let filters₇ :=
    match q.sort with
    | some s =>
      if s ≠ [] ∧ s ∈ validSorts then { filters₆ with sort := s } else filters₆
    | none => filters₆
  match q.search with
  | some s => if s ≠ [] then { filters₇ with search := jsTrim s } else filters₇
  | none => filters₇

/-! ## The storage-touching operations, enumerated

For the frame claim the cart, promo, and order operations that write to
localStorage are collected into one inductive, each constructor carrying
the operation's arguments (with generated ids / timestamps as extra
parameters), and a single function applying the operation to the store. -/

/-- A storage-writing operation of the cart, promo, or order modules. -/
inductive StoreOp where
  | addOp (item : ItemInput) (newId : String)
  | removeOp (cartId : String)
  | updateOp (cartId : String) (quantity : ℚ)
  | saveCartOp (cart : List CartItem)
  | applyPromoOp (code : Str)
  | removePromoOp
  | clearCartOp
  | saveOrderOp (order : OrderData) (orderNumber orderDate : String)
  | processCheckoutOp (formData : FormData) (cartItems : List CartItem)
      (cartSummary : CartSummary) (orderNumber orderDate : String)
      (currentYear currentMonth : ℕ)

/-- The store after running one operation (with working storage). -/
def applyStoreOp (op : StoreOp) (st : Store) : Store :=
  match op with
  | .addOp item newId => (addToCart true item newId st).1
  | .removeOp cartId => (removeFromCart true cartId st).1
  | .updateOp cartId q => (updateQuantity true cartId q st).1
  | .saveCartOp cart => saveCart true st cart
  | .applyPromoOp code => (applyPromoCode true code st).1
  | .removePromoOp => removePromoCode true st
  | .clearCartOp => clearCart true st
  | .saveOrderOp order n d => (saveOrder true order n d st).1
  | .processCheckoutOp fd items summary n d y m =>
    (processCheckout fd items summary n d y m true st).1

/-! ## Claim-side definitions -/

/-- The variant key by which cart rows are unique: (productId, size, color). -/
def variantKey (r : CartItem) : String × String × String :=
  (r.productId, r.size, r.color)

/-- No two rows of the cart share a variant key. -/
def distinctVariantKeys (cart : List CartItem) : Prop :=
  (cart.map variantKey).Pairwise (· ≠ ·)

instance (cart : List CartItem) : Decidable (distinctVariantKeys cart) :=
  List.instDecidablePairwise _

/-- A cart-mutating operation of cart.js (generated cartIds passed in). -/
inductive CartOp where
  | addOp (item : ItemInput) (newId : String)
  | removeOp (cartId : String)
  | updateOp (cartId : String) (quantity : ℚ)

/-- Run one cart operation against the store. -/
def applyCartOp (op : CartOp) (st : Store) : Store :=
  match op with
  | .addOp item newId => (addToCart true item newId st).1
  | .removeOp cartId => (removeFromCart true cartId st).1
  | .updateOp cartId q => (updateQuantity true cartId q st).1

/-- Run a sequence of cart operations from a starting store. -/
def runCartOps (ops : List CartOp) (st : Store) : Store :=
  ops.foldl (fun s op => applyCartOp op s) st

/-- Fold a doubled digit back to one digit: the Luhn doubling step. -/
def double9 (d : ℕ) : ℕ := if 2 * d > 9 then 2 * d - 9 else 2 * d

/-- The claim's Luhn sum over the digit values taken from the right:
    every second digit is doubled (digits of doubled values summed by
    subtracting 9). -/
def luhnSpecSum : List ℕ → ℕ
  | [] => 0
  | [d] => d
  | d :: e :: rest => d + double9 e + luhnSpecSum rest

/-- The claim's description of an accepted card number: after removing
    spaces and dashes, solely 13 to 19 decimal digits whose
    doubled-every-second-digit sum is divisible by 10. -/
def cardClaimOk (cardNumber : Str) : Prop :=
  13 ≤ (stripWsDash cardNumber).length ∧ (stripWsDash cardNumber).length ≤ 19 ∧
  (stripWsDash cardNumber).all Char.isDigit = true ∧
  luhnSpecSum ((stripWsDash cardNumber).reverse.map digitVal) % 10 = 0

/-! ## Concrete fixtures used by the witness theorems -/

/-- A sample item to add. -/
def itemA : ItemInput :=
  { productId := "p1", name := "Classic Harness", price := 30, size := "M",
    color := "black", quantity := 1, image := "img1" }

/-- Same variant key as itemA, different quantity. -/
def itemA2 : ItemInput :=
  { productId := "p1", name := "Classic Harness", price := 30, size := "M",
    color := "black", quantity := 2, image := "img1" }

/-- A different variant (other size). -/
def itemB : ItemInput :=
  { productId := "p1", name := "Classic Harness", price := 30, size := "L",
    color := "black", quantity := 1, image := "img1" }

/-- The cart row for itemA. -/
def rowA : CartItem := mkCartItem itemA "id1"

/-- A store holding the one-row cart [rowA]. -/
def storeCart : Store :=
  fun k => if k = CART_STORAGE_KEY then some (.cartV [rowA]) else none

/-- A store holding [rowA] and the applied promo code AIFORHUMANS. -/
def storePromo : Store :=
  fun k =>
    if k = CART_STORAGE_KEY then some (.cartV [rowA])
    else if k = PROMO_STORAGE_KEY then some (.strV (str "AIFORHUMANS"))
    else none

/-- A checkout form that passes every validator (October 2026). -/
def fdOk : FormData :=
  { email := str "a@b.co", phone := str "", firstName := str "Jo",
    lastName := str "Doe", address1 := str "1 Main St", address2 := str "",
    city := str "Springfield", state := str "IL", zipCode := str "12345",
    country := str "US", cardNumber := str "4242 4242 4242 4242",
    cardName := str "Jo Doe", expiry := str "12/30", cvv := str "123" }

/-- fdOk with other middle card digits (same last four, still Luhn-valid),
    another CVV, and another expiry. -/
def fdOk2 : FormData :=
  { fdOk with cardNumber := str "4242414342424242", cvv := str "999",
              expiry := str "11/29" }

/-- The cart summary matching storePromo (subtotal 30, 10% promo). -/
def summaryA : CartSummary :=
  { subtotal := 30, promoCode := some (str "AIFORHUMANS"), discount := 3,
    total := 27, shipping := 0, itemCount := 1 }

/-- A sample order payload for saveOrder. -/
def orderDataA : OrderData :=
  { items := [{ productId := "p1", name := "Classic Harness", price := 30,
                size := "M", color := "black", quantity := 1,
                image := "img1" }],
    shipping := { firstName := str "Jo", lastName := str "Doe",
                  address1 := str "1 Main St", address2 := [],
                  city := str "Springfield", state := str "IL",
                  zipCode := str "12345", country := str "US" },
    contact := { email := str "a@b.co", phone := [] },
    payment := { cardLast4 := str "4242", cardName := str "Jo Doe" },
    totals := { subtotal := 30, discount := 3,
                promoCode := some (str "AIFORHUMANS"), shipping := 0,
                total := 27 } }

/-- A filter state the URL round-trip loses: a negative minPrice. -/
def fNeg : Filters := { getDefaultFilters with minPrice := some (-1) }

/-- A well-formed non-default filter state. -/
def fBusy : Filters :=
  { categories := [str "hats", str "wax"], minPrice := some 5,
    maxPrice := some 80, colors := [str "red"], sizes := [str "M"],
    inStockOnly := true, sort := str "name", search := str "big" }

/-! ## Claims -/

/-- C1: addToCart merges by variant: when the cart already holds a row with
    the added item's (productId, size, color), the first such row's quantity
    grows by the added quantity and the cart keeps its length; otherwise
    exactly one new row is appended carrying the item's fields plus a
    cartId.  The updated cart is also what gets saved to storage. -/
theorem addToCart_merges_by_variant (st : Store) (item : ItemInput)
    (newId : String) :
    ((addToCart true item newId st).1 CART_STORAGE_KEY
        = some (StoredVal.cartV ((addToCart true item newId st).2))) ∧
    (if (getCart true st).any (fun row => variantMatches row item) then
      (addToCart true item newId st).2.length = (getCart true st).length ∧
      ∃ i, ∃ h : i < (getCart true st).length,
        variantMatches ((getCart true st)[i]) item = true ∧
        (∀ j, ∀ hj : j < (getCart true st).length, j < i →
            ¬ variantMatches ((getCart true st)[j]) item = true) ∧
        (addToCart true item newId st).2 =
          modifyAt (getCart true st) i
            (fun row => { row with quantity := row.quantity + item.quantity })
    else
      (addToCart true item newId st).2 = getCart true st ++ [mkCartItem item newId]) := by
  refine ⟨by simp [addToCart, saveCart, setItem], ?_⟩
  rcases h : (getCart true st).findIdx? (fun row => variantMatches row item)
    with _ | i
  · have hany : (getCart true st).any (fun row => variantMatches row item) = false := by
      rw [List.any_eq_false]
      intro x hx
      simpa using List.findIdx?_eq_none_iff.mp h x hx
    rw [hany]
    simp only [Bool.false_eq_true, if_false]
    simp [addToCart, addToCartList, h]
  · have hany : (getCart true st).any (fun row => variantMatches row item) = true := by
      rw [← List.findIdx?_isSome, h]
      rfl
    rw [hany]
    simp only [if_true]
    obtain ⟨hlt, hp, hprev⟩ := List.findIdx?_eq_some_iff_getElem.mp h
    constructor
    · simp [addToCart, addToCartList, h, modifyAt, List.length_modify]
    · refine ⟨i, hlt, by simpa using hp, ?_, ?_⟩
      · intro j hj hji
        simpa using hprev j hji
      · simp [addToCart, addToCartList, h]

/-- Reading the cart back after saveCart yields what was saved. -/
theorem getCart_saveCart (st : Store) (cart : List CartItem) :
    getCart true (saveCart true st cart) = cart := by
  simp [getCart, initCart, saveCart, setItem, getItem]

/-- A pointwise modification that keeps the variant key keeps the key list. -/
theorem map_variantKey_modify (f : CartItem → CartItem)
    (hf : ∀ x, variantKey (f x) = variantKey x) :
    ∀ (l : List CartItem) (i : ℕ),
      (l.modify f i).map variantKey = l.map variantKey
  | [], _ => by simp
  | a :: l, 0 => by simp [List.modify, hf]
  | a :: l, i + 1 => by
    have ih := map_variantKey_modify f hf l i
    simp only [List.modify] at ih ⊢
    simp only [List.modifyTailIdx, List.map_cons, ih]

/-- addToCartList preserves variant-key uniqueness. -/
theorem distinct_addToCartList (cart : List CartItem) (item : ItemInput)
    (newId : String) (h : distinctVariantKeys cart) :
    distinctVariantKeys (addToCartList cart item newId) := by
  unfold addToCartList
  rcases hf : cart.findIdx? (fun row => variantMatches row item) with _ | i
  · simp only [hf]
    rw [List.findIdx?_eq_none_iff] at hf
    unfold distinctVariantKeys at h ⊢
    rw [List.map_append, List.pairwise_append]
    refine ⟨h, by simp, ?_⟩
    intro a ha b hb
    simp only [List.map_cons, List.map_nil, List.mem_singleton] at hb
    obtain ⟨x, hx, rfl⟩ := List.mem_map.mp ha
    subst hb
    intro hkey
    have hfalse := hf x hx
    simp only [variantKey, mkCartItem, Prod.mk.injEq] at hkey
    simp [variantMatches, hkey.1, hkey.2.1, hkey.2.2] at hfalse
  · simp only [hf]
    unfold distinctVariantKeys at h ⊢
    unfold modifyAt
    rw [map_variantKey_modify
      (fun row => { row with quantity := row.quantity + item.quantity })
      (fun x => rfl)]
    exact h

/-- removeFromCartList preserves variant-key uniqueness. -/
theorem distinct_removeFromCartList (cart : List CartItem) (cartId : String)
    (h : distinctVariantKeys cart) :
    distinctVariantKeys (removeFromCartList cart cartId) := by
  unfold distinctVariantKeys at h ⊢
  unfold removeFromCartList
  exact h.sublist ((cart.filter_sublist).map variantKey)

/-- updateQuantityList preserves variant-key uniqueness. -/
theorem distinct_updateQuantityList (cart : List CartItem) (cartId : String)
    (q : ℚ) (h : distinctVariantKeys cart) :
    distinctVariantKeys (updateQuantityList cart cartId q) := by
  unfold updateQuantityList
  rcases hf : cart.findIdx? (fun item => item.cartId = cartId) with _ | i
  · simp only [hf]
    exact h
  · simp only [hf]
    unfold distinctVariantKeys at h ⊢
    unfold modifyAt
    rw [map_variantKey_modify (fun row => { row with quantity := q })
      (fun x => rfl)]
    exact h

/-- C2: from the empty cart, every sequence of addToCart / removeFromCart /
    updateQuantity operations yields a cart whose rows have pairwise
    distinct (productId, size, color) triples, and each single operation
    preserves that uniqueness invariant. -/
theorem cart_variant_uniqueness :
    (∀ ops : List CartOp,
        distinctVariantKeys (getCart true (runCartOps ops emptyStore))) ∧
    (∀ (op : CartOp) (st : Store), distinctVariantKeys (getCart true st) →
        distinctVariantKeys (getCart true (applyCartOp op st))) := by
  have step : ∀ (op : CartOp) (st : Store),
      distinctVariantKeys (getCart true st) →
      distinctVariantKeys (getCart true (applyCartOp op st)) := by
    intro op st h
    cases op with
    | addOp item newId =>
      simp only [applyCartOp, addToCart]
      rw [getCart_saveCart]
      exact distinct_addToCartList _ _ _ h
    | removeOp cartId =>
      simp only [applyCartOp, removeFromCart]
      rw [getCart_saveCart]
      exact distinct_removeFromCartList _ _ h
    | updateOp cartId q =>
      simp only [applyCartOp, updateQuantity]
      by_cases hq : q ≤ 0
      · simp only [hq, if_true]
        simp only [removeFromCart]
        rw [getCart_saveCart]
        exact distinct_removeFromCartList _ _ h
      · simp only [hq, if_false]
        rcases hf : (getCart true st).findIdx? (fun item => item.cartId = cartId)
          with _ | i
        · simp only [hf]
          exact h
        · simp only [hf]
          rw [getCart_saveCart]
          exact distinct_updateQuantityList _ _ _ h
  have run : ∀ (ops : List CartOp) (st : Store),
      distinctVariantKeys (getCart true st) →
      distinctVariantKeys (getCart true (runCartOps ops st)) := by
    intro ops
    induction ops with
    | nil => intro st h; simpa [runCartOps] using h
    | cons op ops ih =>
      intro st h
      simpa [runCartOps] using ih _ (step op st h)
  refine ⟨fun ops => run ops emptyStore ?_, step⟩
  simp [distinctVariantKeys, getCart, initCart, getItem, emptyStore]

/-- Witness for C2 at concrete inputs: a three-operation run from the empty
    store, and one preservation step on a concrete distinct cart. -/
theorem cart_variant_uniqueness_witness :
    distinctVariantKeys (getCart true (runCartOps
      [CartOp.addOp itemA "id1", CartOp.addOp itemA2 "id2",
       CartOp.addOp itemB "id3"] emptyStore)) ∧
    distinctVariantKeys (getCart true
      (applyCartOp (CartOp.removeOp "id1") storeCart)) :=
  ⟨cart_variant_uniqueness.1 _,
   cart_variant_uniqueness.2 (CartOp.removeOp "id1") storeCart (by decide)⟩

/-- Folding addition of a mapped value equals the accumulator plus the sum
    of the mapped list (the reduce pattern of calculateSubtotal). -/
theorem foldl_add_map (f : CartItem → ℚ) :
    ∀ (l : List CartItem) (a : ℚ),
      l.foldl (fun t i => t + f i) a = a + (l.map f).sum
  | [], a => by simp
  | x :: l, a => by
    simp only [List.foldl_cons, List.map_cons, List.sum_cons]
    rw [foldl_add_map f l (a + f x)]
    ring

/-- C3: calculateSubtotal sums price times quantity over the cart;
    calculateDiscount is exactly 10% of that subtotal when the stored promo
    code is AIFORHUMANS, and 0 when no code is stored or the stored code is
    unknown; calculateTotal is subtotal minus discount. -/
theorem cart_totals_spec (st : Store) :
    calculateSubtotal true st
        = ((getCart true st).map (fun item => item.price * item.quantity)).sum ∧
    (getAppliedPromo true st = some (str "AIFORHUMANS") →
        calculateDiscount true st = calculateSubtotal true st * (1 / 10)) ∧
    (getAppliedPromo true st = none → calculateDiscount true st = 0) ∧
    (∀ code, getAppliedPromo true st = some code →
        PROMO_CODES.lookup code = none → calculateDiscount true st = 0) ∧
    calculateTotal true st
        = calculateSubtotal true st - calculateDiscount true st := by
  refine ⟨?_, ?_, ?_, ?_, rfl⟩
  · unfold calculateSubtotal
    simpa using foldl_add_map (fun item => item.price * item.quantity)
      (getCart true st) 0
  · intro hp
    simp only [calculateDiscount, hp]
    rw [if_neg (by decide)]
    have hl : PROMO_CODES.lookup (str "AIFORHUMANS") = some (1 / 10) := by
      simp [PROMO_CODES, List.lookup]
    rw [hl]
  · intro hp
    simp [calculateDiscount, hp]
  · intro code hp hl
    simp only [calculateDiscount, hp]
    by_cases hc : code = []
    · simp [hc]
    · simp [hc, hl]

/-- Witness for C3 at a store holding one 30-priced row and the promo code. -/
theorem cart_totals_spec_witness :
    getAppliedPromo true storePromo = some (str "AIFORHUMANS") ∧
    calculateDiscount true storePromo
      = calculateSubtotal true storePromo * (1 / 10) :=
  ⟨by decide, (cart_totals_spec storePromo).2.1 (by decide)⟩

/-- C9: validatePromoCode accepts a code exactly when its trimmed,
    upper-cased form is AIFORHUMANS; applyPromoCode then stores that
    normalized form, and calculateDiscount on the updated store yields the
    10% discount on the unchanged subtotal. -/
theorem promo_case_insensitive :
    (∀ code : Str, (validatePromoCode code).valid = true ↔
        jsToUpper (jsTrim code) = str "AIFORHUMANS") ∧
    (∀ (code : Str) (st : Store), (validatePromoCode code).valid = true →
        (applyPromoCode true code st).1 PROMO_STORAGE_KEY
            = some (StoredVal.strV (str "AIFORHUMANS")) ∧
        calculateDiscount true (applyPromoCode true code st).1
            = calculateSubtotal true (applyPromoCode true code st).1 * (1 / 10) ∧
        calculateSubtotal true (applyPromoCode true code st).1
            = calculateSubtotal true st) := by
  have hiff : ∀ code : Str, (validatePromoCode code).valid = true ↔
      jsToUpper (jsTrim code) = str "AIFORHUMANS" := by
    intro code
    by_cases hc : code = []
    · subst hc
      constructor
      · intro h; exact absurd h (by decide)
      · intro h; exact absurd h (by decide)
    · simp only [validatePromoCode, if_neg hc]
      by_cases hn : jsToUpper (jsTrim code) = str "AIFORHUMANS"
      · rw [hn]
        simp [PROMO_CODES, List.lookup]
      · have hb : (jsToUpper (jsTrim code) == str "AIFORHUMANS") = false :=
          beq_eq_false_iff_ne.mpr hn
        simp [PROMO_CODES, List.lookup, hb, hn]
  refine ⟨hiff, ?_⟩
  intro code st h
  have hnorm := (hiff code).mp h
  have happ : (applyPromoCode true code st).1 =
      fun k' => if k' = PROMO_STORAGE_KEY
        then some (StoredVal.strV (jsToUpper (jsTrim code))) else st k' := by
    simp only [applyPromoCode, h, if_pos, setItem]
  rw [happ, hnorm]
  have hsub : calculateSubtotal true
      (fun k' => if k' = PROMO_STORAGE_KEY
        then some (StoredVal.strV (str "AIFORHUMANS")) else st k')
      = calculateSubtotal true st := by
    simp only [calculateSubtotal, getCart, initCart, getItem, if_pos]
    rw [if_neg (by decide : ¬ CART_STORAGE_KEY = PROMO_STORAGE_KEY)]
  refine ⟨by simp, ?_, hsub⟩
  simp only [calculateDiscount, getAppliedPromo, getItem, if_pos]
  rw [if_neg (by decide : ¬ str "AIFORHUMANS" = ([] : Str))]
  have hl : PROMO_CODES.lookup (str "AIFORHUMANS") = some (1 / 10) := by
    simp [PROMO_CODES, List.lookup]
  rw [hl]

/-- Witness for C9: a mixed-case, padded code validates and is stored
    normalized. -/
theorem promo_case_insensitive_witness :
    (validatePromoCode (str " aiForHumans ")).valid = true ∧
    (applyPromoCode true (str " aiForHumans ") storeCart).1 PROMO_STORAGE_KEY
        = some (StoredVal.strV (str "AIFORHUMANS")) :=
  ⟨by decide,
   (promo_case_insensitive.2 (str " aiForHumans ") storeCart (by decide)).1⟩

/-- The Luhn loop equals the pairwise specification sum on the reversed
    digit string. -/
theorem luhnAux_eq : (r : Str) → luhnAux r false = luhnSpecSum (r.map digitVal)
  | [] => rfl
  | [d] => by simp [luhnAux, luhnSpecSum]
  | d :: e :: rest => by
    have ih := luhnAux_eq rest
    simp [luhnAux, luhnSpecSum, double9, ih]
    ring

/-- C7: validateCreditCard accepts exactly the strings that, after removing
    whitespace and dashes, consist solely of 13 to 19 decimal digits
    satisfying the Luhn checksum (doubled-every-second-digit sum divisible
    by 10). -/
theorem validateCreditCard_iff (cardNumber : Str) :
    (validateCreditCard cardNumber).valid = true ↔ cardClaimOk cardNumber := by
  have hluhn : ∀ l : Str, luhnCheck l = true ↔
      luhnSpecSum (l.reverse.map digitVal) % 10 = 0 := by
    intro l
    simp only [luhnCheck, decide_eq_true_eq, luhnAux_eq l.reverse]
  by_cases h0 : cardNumber = []
  · subst h0
    refine ⟨fun h => by simp [validateCreditCard] at h, fun hcl => ?_⟩
    obtain ⟨h13, -, -, -⟩ := hcl
    simp [stripWsDash] at h13
  · simp only [validateCreditCard, cardClaimOk, if_neg h0]
    split_ifs with h1 h2 h3 h4
    · refine ⟨fun h => by simp at h, fun hcl => ?_⟩
      obtain ⟨h13, -, -, -⟩ := hcl
      omega
    · refine ⟨fun h => by simp at h, fun hcl => ?_⟩
      obtain ⟨-, -, hall, -⟩ := hcl
      simp [hall] at h2
    · refine ⟨fun h => by simp at h, fun hcl => ?_⟩
      obtain ⟨h13, h19, -, -⟩ := hcl
      simp only [Bool.or_eq_true, decide_eq_true_eq] at h3
      omega
    · refine ⟨fun h => by simp at h, fun hcl => ?_⟩
      obtain ⟨-, -, -, hlu⟩ := hcl
      rw [Bool.not_eq_true'] at h4
      rw [(hluhn _).mpr hlu] at h4
      cases h4
    · refine ⟨fun _ => ?_, fun _ => rfl⟩
      simp only [Bool.or_eq_true, decide_eq_true_eq, not_or] at h3
      rw [Bool.not_eq_true', Bool.not_eq_false] at h2 h4
      exact ⟨by omega, by omega, h2, (hluhn _).mp h4⟩

/-- C5 counterexample: when storage access fails, saveOrder does not
    degrade to a failure value — it throws (rethrows a wrapped error) to
    its caller. -/
theorem saveOrder_throws_on_storage_error :
    (saveOrder false orderDataA "MH-1" "2026-10-12" emptyStore).2
      = Except.error "Failed to save order. Please try again." := rfl

/-- C5 amended: under a storage failure every cart / promo / order
    operation except saveOrder catches the error and degrades (empty list,
    null, zero, unchanged storage, or a failure result); saveOrder rethrows
    a wrapped error to its caller, and processCheckout, when it invokes
    saveOrder, catches that error and degrades to a failure result. -/
theorem storage_error_degrades :
    (∀ st, initCart false st = []) ∧
    (∀ st, getCart false st = []) ∧
    (∀ st cart, saveCart false st cart = st) ∧
    (∀ st item newId, (addToCart false item newId st).1 = st ∧
        (addToCart false item newId st).2 = [mkCartItem item newId]) ∧
    (∀ st cartId, (removeFromCart false cartId st).1 = st ∧
        (removeFromCart false cartId st).2 = []) ∧
    (∀ st cartId q, (updateQuantity false cartId q st).1 = st) ∧
    (∀ st, calculateSubtotal false st = 0) ∧
    (∀ st, getAppliedPromo false st = none) ∧
    (∀ st code, (applyPromoCode false code st).1 = st ∧
        (applyPromoCode false code st).2.success = false) ∧
    (∀ st, removePromoCode false st = st) ∧
    (∀ st, calculateDiscount false st = 0) ∧
    (∀ st, calculateTotal false st = 0) ∧
    (∀ st, clearCart false st = st) ∧
    (∀ st, getOrderHistory false st = []) ∧
    (∀ st orderNumber, getOrderByNumber false orderNumber st = none) ∧
    (∀ st order orderNumber orderDate,
        (saveOrder false order orderNumber orderDate st).1 = st) ∧
    (∀ st formData cartItems cartSummary orderNumber orderDate y m,
        (processCheckout formData cartItems cartSummary orderNumber orderDate
            y m false st).1 = st ∧
        (processCheckout formData cartItems cartSummary orderNumber orderDate
            y m false st).2.success = false) := by
  have hsub : ∀ st, calculateSubtotal false st = 0 := fun st => rfl
  have hdisc : ∀ st, calculateDiscount false st = 0 := fun st => rfl
  refine ⟨fun st => rfl, fun st => rfl, fun st cart => rfl, ?_, ?_, ?_, hsub,
    fun st => rfl, ?_, fun st => rfl, hdisc, ?_, fun st => rfl, fun st => rfl,
    fun st n => rfl, fun st o n d => rfl, ?_⟩
  · intro st item newId
    exact ⟨rfl, rfl⟩
  · intro st cartId
    exact ⟨rfl, rfl⟩
  · intro st cartId q
    by_cases hq : q ≤ 0
    · simp [updateQuantity, hq, removeFromCart, saveCart, setItem, getCart,
        initCart, getItem, removeFromCartList]
    · simp [updateQuantity, hq, getCart, initCart, getItem]
  · intro st code
    by_cases hv : (validatePromoCode code).valid = true
    · simp [applyPromoCode, hv, setItem]
    · simp [applyPromoCode, hv]
  · intro st
    show calculateSubtotal false st - calculateDiscount false st = 0
    rw [hsub, hdisc]
    norm_num
  · intro st fd items summary n d y m
    by_cases hv : (validateCheckoutForm fd y m).valid = true
    · by_cases he : items.isEmpty
      · simp [processCheckout, hv, he]
      · simp [processCheckout, hv, he, saveOrder, setItem]
    · simp [processCheckout, hv]

/-- C6: for a form passing validation and a non-empty cart, processCheckout
    succeeds, the stored order history becomes the old history plus exactly
    one new record — a snapshot of the cart items, the trimmed shipping and
    contact fields, the masked payment data, and the summary totals — and
    the cart and promo storage are cleared. -/
theorem processCheckout_appends_one_order (formData : FormData)
    (cartItems : List CartItem) (cartSummary : CartSummary)
    (orderNumber orderDate : String) (y m : ℕ) (st : Store)
    (hvalid : (validateCheckoutForm formData y m).valid = true)
    (hcart : cartItems ≠ []) :
    (processCheckout formData cartItems cartSummary orderNumber orderDate
        y m true st).2.success = true ∧
    ∃ rec : Order,
      (processCheckout formData cartItems cartSummary orderNumber orderDate
          y m true st).2.order = some rec ∧
      getOrderHistory true (processCheckout formData cartItems cartSummary
          orderNumber orderDate y m true st).1
        = getOrderHistory true st ++ [rec] ∧
      rec.items = cartItems.map (fun item =>
        { productId := item.productId, name := item.name, price := item.price,
          size := item.size, color := item.color, quantity := item.quantity,
          image := item.image }) ∧
      rec.shipping =
        { firstName := jsTrim formData.firstName,
          lastName := jsTrim formData.lastName,
          address1 := jsTrim formData.address1,
          address2 := if formData.address2 = [] then []
                      else jsTrim formData.address2,
          city := jsTrim formData.city, state := jsTrim formData.state,
          zipCode := jsTrim formData.zipCode,
          country := jsTrim formData.country } ∧
      rec.contact =
        { email := jsTrim formData.email,
          phone := if formData.phone = [] then []
                   else jsTrim formData.phone } ∧
      rec.payment =
        { cardLast4 := sliceLast4 (keepDigits formData.cardNumber),
          cardName := jsTrim formData.cardName } ∧
      rec.totals =
        { subtotal := cartSummary.subtotal, discount := cartSummary.discount,
          promoCode := cartSummary.promoCode,
          shipping := cartSummary.shipping, total := cartSummary.total } ∧
      rec.orderNumber = orderNumber ∧ rec.orderDate = orderDate ∧
      rec.status = "confirmed" ∧
      (processCheckout formData cartItems cartSummary orderNumber orderDate
          y m true st).1 CART_STORAGE_KEY = none ∧
      (processCheckout formData cartItems cartSummary orderNumber orderDate
          y m true st).1 PROMO_STORAGE_KEY = none := by
  have hne : cartItems.isEmpty = false := by
    cases cartItems with
    | nil => exact absurd rfl hcart
    | cons a l => rfl
  simp only [processCheckout, hvalid, Bool.not_true, Bool.false_eq_true,
    if_false, hne, saveOrder, setItem, if_true]
  refine ⟨trivial, _, rfl, ?_, rfl, rfl, rfl, rfl, rfl, rfl, rfl, rfl, ?_, ?_⟩ <;>
    simp [clearCart, removeItem, getOrderHistory, getItem,
      CART_STORAGE_KEY, PROMO_STORAGE_KEY, ORDERS_STORAGE_KEY]

/-- Witness for C6: a concrete valid checkout against a concrete store. -/
theorem processCheckout_appends_one_order_witness :
    (validateCheckoutForm fdOk 2026 10).valid = true ∧
    ([rowA] : List CartItem) ≠ [] ∧
    (processCheckout fdOk [rowA] summaryA "MH-20261012-ABC123" "2026-10-12"
        2026 10 true storePromo).2.success = true :=
  ⟨by decide, by decide,
   (processCheckout_appends_one_order fdOk [rowA] summaryA
      "MH-20261012-ABC123" "2026-10-12" 2026 10 storePromo
      (by decide) (by decide)).1⟩

/-- C10: stored payment data is only the last four card digits and the
    cardholder name: two valid checkouts agreeing on those agree on the
    stored payment record, whatever their other card digits, CVV, or
    expiry; and every produced order's payment record is exactly the masked
    pair. -/
theorem orders_mask_card_data (fd1 fd2 : FormData) (cartItems : List CartItem)
    (cartSummary : CartSummary) (orderNumber orderDate : String) (y m : ℕ)
    (st1 st2 : Store)
    (hname : fd1.cardName = fd2.cardName)
    (hlast : sliceLast4 (keepDigits fd1.cardNumber)
        = sliceLast4 (keepDigits fd2.cardNumber))
    (hv1 : (validateCheckoutForm fd1 y m).valid = true)
    (hv2 : (validateCheckoutForm fd2 y m).valid = true)
    (hcart : cartItems ≠ []) :
    ((processCheckout fd1 cartItems cartSummary orderNumber orderDate
        y m true st1).2.order.map Order.payment
      = (processCheckout fd2 cartItems cartSummary orderNumber orderDate
        y m true st2).2.order.map Order.payment) ∧
    (∀ rec : Order,
      (processCheckout fd1 cartItems cartSummary orderNumber orderDate
          y m true st1).2.order = some rec →
      rec.payment = { cardLast4 := sliceLast4 (keepDigits fd1.cardNumber),
                      cardName := jsTrim fd1.cardName }) := by
  have hne : cartItems.isEmpty = false := by
    cases cartItems with
    | nil => exact absurd rfl hcart
    | cons a l => rfl
  constructor
  · simp only [processCheckout, hv1, hv2, Bool.not_true, Bool.false_eq_true,
      if_false, hne, saveOrder, setItem, if_true, Option.map_some]
    rw [hname, hlast]
    rfl
  · intro rec hrec
    simp only [processCheckout, hv1, Bool.not_true, Bool.false_eq_true,
      if_false, hne, saveOrder, setItem, if_true, Option.some.injEq] at hrec
    rw [← hrec]

/-- Witness for C10: two forms differing in middle card digits, CVV, and
    expiry yield the same stored payment record. -/
theorem orders_mask_card_data_witness :
    fdOk.cardName = fdOk2.cardName ∧
    sliceLast4 (keepDigits fdOk.cardNumber)
      = sliceLast4 (keepDigits fdOk2.cardNumber) ∧
    (validateCheckoutForm fdOk 2026 10).valid = true ∧
    (validateCheckoutForm fdOk2 2026 10).valid = true ∧
    ((processCheckout fdOk [rowA] summaryA "MH-1" "D" 2026 10 true
        storePromo).2.order.map Order.payment
      = (processCheckout fdOk2 [rowA] summaryA "MH-1" "D" 2026 10 true
        storePromo).2.order.map Order.payment) :=
  ⟨rfl, by decide, by decide, by decide,
   (orders_mask_card_data fdOk fdOk2 [rowA] summaryA "MH-1" "D" 2026 10
      storePromo storePromo rfl (by decide) (by decide) (by decide)
      (by decide)).1⟩

/-- C8: every storage-writing cart, promo, or order operation leaves all
    local-storage keys other than mh_cart, mh_promo, and mh_orders
    unchanged; clearCart removes exactly mh_cart and mh_promo and leaves
    mh_orders intact. -/
theorem storage_key_frame (op : StoreOp) (st : Store) (k : String)
    (hc : k ≠ CART_STORAGE_KEY) (hp : k ≠ PROMO_STORAGE_KEY)
    (ho : k ≠ ORDERS_STORAGE_KEY) :
    applyStoreOp op st k = st k ∧
    clearCart true st CART_STORAGE_KEY = none ∧
    clearCart true st PROMO_STORAGE_KEY = none ∧
    clearCart true st ORDERS_STORAGE_KEY = st ORDERS_STORAGE_KEY := by
  refine ⟨?_, ?_, ?_, ?_⟩
  · cases op with
    | addOp item newId => simp [applyStoreOp, addToCart, saveCart, setItem, hc]
    | removeOp cartId =>
      simp [applyStoreOp, removeFromCart, saveCart, setItem, hc]
    | updateOp cartId q =>
      simp only [applyStoreOp, updateQuantity]
      by_cases hq : q ≤ 0
      · simp [hq, removeFromCart, saveCart, setItem, hc]
      · simp only [hq, if_false]
        rcases hf : (getCart true st).findIdx? (fun item => item.cartId = cartId)
          with _ | i
        · simp [hf]
        · simp [hf, saveCart, setItem, hc]
    | saveCartOp cart => simp [applyStoreOp, saveCart, setItem, hc]
    | applyPromoOp code =>
      simp only [applyStoreOp, applyPromoCode]
      by_cases hv : (validatePromoCode code).valid = true
      · simp [hv, setItem, hp]
      · simp [hv]
    | removePromoOp => simp [applyStoreOp, removePromoCode, removeItem, hp]
    | clearCartOp => simp [applyStoreOp, clearCart, removeItem, hc, hp]
    | saveOrderOp o n d => simp [applyStoreOp, saveOrder, setItem, ho]
    | processCheckoutOp fd items summary n d y m =>
      simp only [applyStoreOp, processCheckout]
      by_cases hv : (validateCheckoutForm fd y m).valid = true
      · by_cases he : items.isEmpty
        · simp [hv, he]
        · simp [hv, he, saveOrder, setItem, clearCart, removeItem, hc, hp, ho]
      · simp [hv]
  · simp [clearCart, removeItem, CART_STORAGE_KEY, PROMO_STORAGE_KEY]
  · simp [clearCart, removeItem]
  · simp [clearCart, removeItem, CART_STORAGE_KEY, PROMO_STORAGE_KEY,
      ORDERS_STORAGE_KEY]

/-- Witness for C8: clearing the cart leaves an unrelated key and the
    order history untouched on a concrete store. -/
theorem storage_key_frame_witness :
    ("mh_other" ≠ CART_STORAGE_KEY) ∧ ("mh_other" ≠ PROMO_STORAGE_KEY) ∧
    ("mh_other" ≠ ORDERS_STORAGE_KEY) ∧
    applyStoreOp StoreOp.clearCartOp storePromo "mh_other"
        = storePromo "mh_other" ∧
    clearCart true storePromo ORDERS_STORAGE_KEY
        = storePromo ORDERS_STORAGE_KEY :=
  ⟨by decide, by decide, by decide,
   (storage_key_frame StoreOp.clearCartOp storePromo "mh_other"
      (by decide) (by decide) (by decide)).1,
   (storage_key_frame StoreOp.clearCartOp storePromo "mh_other"
      (by decide) (by decide) (by decide)).2.2.2⟩

/-- Splitting a string without the separator yields the single piece. -/
theorem splitCh_no_sep (sep : Char) :
    ∀ (x : Str), sep ∉ x → splitCh sep x = [x]
  | [], _ => rfl
  | c :: cs, h => by
    have hc : ¬ c = sep := fun e => h (e ▸ List.mem_cons_self c cs)
    have ih := splitCh_no_sep sep cs (fun m => h (List.mem_cons_of_mem c m))
    simp [splitCh, hc, ih]

/-- Splitting peels off a separator-free piece before a separator. -/
theorem splitCh_append_sep (sep : Char) :
    ∀ (x rest : Str), sep ∉ x →
      splitCh sep (x ++ sep :: rest) = x :: splitCh sep rest
  | [], rest, _ => by simp [splitCh]
  | c :: cs, rest, h => by
    have hc : ¬ c = sep := fun e => h (e ▸ List.mem_cons_self c cs)
    have ih := splitCh_append_sep sep cs rest
      (fun m => h (List.mem_cons_of_mem c m))
    simp only [List.cons_append, splitCh, hc, if_false, List.append_eq, ih]

/-- split undoes join on a nonempty list of separator-free pieces. -/
theorem splitCh_joinCh (sep : Char) :
    ∀ (l : List Str), l ≠ [] → (∀ x ∈ l, sep ∉ x) →
      splitCh sep (joinCh sep l) = l
  | [], h, _ => absurd rfl h
  | [x], _, hx => by
    simp [joinCh, splitCh_no_sep sep x (hx x (by simp))]
  | x :: y :: t, _, hx => by
    have ih := splitCh_joinCh sep (y :: t) (by simp)
      (fun z hz => hx z (List.mem_cons_of_mem x hz))
    rw [show joinCh sep (x :: y :: t) = x ++ sep :: joinCh sep (y :: t)
      from rfl]
    rw [splitCh_append_sep sep x _ (hx x (by simp)), ih]

/-- Joining nonempty pieces yields a nonempty string. -/
theorem joinCh_ne_nil (sep : Char) :
    ∀ (l : List Str), l ≠ [] → (∀ x ∈ l, x ≠ []) → joinCh sep l ≠ []
  | [], h, _ => absurd rfl h
  | [x], _, hx => by simpa [joinCh] using hx x (by simp)
  | x :: y :: t, _, _ => by simp [joinCh]

/-- The parse side of a comma-joined list channel recovers the list when
    every entry has a nonempty trim and no comma. -/
theorem split_join_filter (l : List Str) (hne : l ≠ [])
    (h : ∀ x ∈ l, jsTrim x ≠ [] ∧ ',' ∉ x) :
    (splitCh ',' (joinCh ',' l)).filter (fun c => jsTrim c ≠ []) = l := by
  rw [splitCh_joinCh ',' l hne (fun x hx => (h x hx).2)]
  rw [List.filter_eq_self.mpr]
  intro a ha
  simpa using (h a ha).1

/-- C4 counterexample: the claim fails as stated — a filter state with a
    negative minPrice is not recovered by the round trip (parse discards
    negative prices). -/
theorem filters_roundtrip_counterexample :
    parseFiltersFromURL (buildURLFromFilters fNeg) ≠ fNeg := by decide

set_option maxHeartbeats 1000000 in
/-- C4 amended: the URL round trip restores a filter state whose list
    entries (categories, colors, sizes) have nonempty trims and no commas,
    whose prices are absent or non-negative, whose sort is one of the
    valid sort options, and whose search is already trimmed. -/
theorem filters_roundtrip (f : Filters)
    (hcat : ∀ s ∈ f.categories, jsTrim s ≠ [] ∧ ',' ∉ s)
    (hcol : ∀ s ∈ f.colors, jsTrim s ≠ [] ∧ ',' ∉ s)
    (hsiz : ∀ s ∈ f.sizes, jsTrim s ≠ [] ∧ ',' ∉ s)
    (hmin : ∀ p ∈ f.minPrice, 0 ≤ p)
    (hmax : ∀ p ∈ f.maxPrice, 0 ≤ p)
    (hsort : f.sort ∈ validSorts)
    (hsearch : jsTrim f.search = f.search) :
    parseFiltersFromURL (buildURLFromFilters f) = f := by
  obtain ⟨cats, minP, maxP, cols, sizs, stock, sort, search⟩ := f
  simp only at hcat hcol hsiz hmin hmax hsort hsearch
  have hs1 : sort ≠ [] := by
    simp only [validSorts, List.mem_cons, List.not_mem_nil, or_false] at hsort
    rcases hsort with h|h|h|h|h|h|h <;> (subst h; decide)
  have hc1 : cats ≠ [] →
      (splitCh ',' (joinCh ',' cats)).filter (fun c => jsTrim c ≠ []) = cats :=
    fun hne => split_join_filter cats hne hcat
  have hc2 : cats ≠ [] → joinCh ',' cats ≠ [] :=
    fun hne => joinCh_ne_nil ',' cats hne
      (fun x hx e => (hcat x hx).1 (by rw [e]; rfl))
  have ho1 : cols ≠ [] →
      (splitCh ',' (joinCh ',' cols)).filter (fun c => jsTrim c ≠ []) = cols :=
    fun hne => split_join_filter cols hne hcol
  have ho2 : cols ≠ [] → joinCh ',' cols ≠ [] :=
    fun hne => joinCh_ne_nil ',' cols hne
      (fun x hx e => (hcol x hx).1 (by rw [e]; rfl))
  have hz1 : sizs ≠ [] →
      (splitCh ',' (joinCh ',' sizs)).filter (fun c => jsTrim c ≠ []) = sizs :=
    fun hne => split_join_filter sizs hne hsiz
  have hz2 : sizs ≠ [] → joinCh ',' sizs ≠ [] :=
    fun hne => joinCh_ne_nil ',' sizs hne
      (fun x hx e => (hsiz x hx).1 (by rw [e]; rfl))
  have htrue1 : str "true" ≠ str "1" := by decide
  simp only [parseFiltersFromURL, buildURLFromFilters, getDefaultFilters]
  by_cases h1 : cats = [] <;> by_cases h4 : cols = [] <;>
    by_cases h5 : sizs = [] <;> rcases minP with _ | p <;>
    rcases maxP with _ | q <;> cases stock <;>
    by_cases h7 : sort = str "featured" <;> by_cases h8 : search = [] <;>
    simp_all

/-- Witness for C4 at a concrete well-formed filter state. -/
theorem filters_roundtrip_witness :
    (∀ s ∈ fBusy.categories, jsTrim s ≠ [] ∧ ',' ∉ s) ∧
    (∀ p ∈ fBusy.minPrice, 0 ≤ p) ∧
    fBusy.sort ∈ validSorts ∧ jsTrim fBusy.search = fBusy.search ∧
    parseFiltersFromURL (buildURLFromFilters fBusy) = fBusy :=
  ⟨by decide, by decide, by decide, by decide,
   filters_roundtrip fBusy (by decide) (by decide) (by decide) (by decide)
     (by decide) (by decide) (by decide)⟩

/-- Witness for C1: the stored cart after adding a fresh variant. -/
theorem addToCart_merges_by_variant_witness :
    (addToCart true itemB "id9" storeCart).1 CART_STORAGE_KEY
      = some (StoredVal.cartV ((addToCart true itemB "id9" storeCart).2)) :=
  (addToCart_merges_by_variant storeCart itemB "id9").1

/-- Witness for C7: the iff at a concrete accepted card number. -/
theorem validateCreditCard_iff_witness :
    (validateCreditCard (str "4242 4242 4242 4242")).valid = true ↔
      cardClaimOk (str "4242 4242 4242 4242") :=
  validateCreditCard_iff (str "4242 4242 4242 4242")
